import Mathlib

/-!
Verification of the GPU path-tracer host orchestrator and its shared
GPU record encodings.

The record layer (`shared_structs/src/lib.rs`) stores integer payloads in
the fourth component of `f32` 4-vectors via `core::mem::transmute`, a
bit-for-bit reinterpretation.  We therefore model every `f32` storage slot
by its 32-bit pattern (a `Nat` below `2^32`): `transmute` in either
direction is the identity on that pattern, and the float constants the
code stores (`0.0`, `f32::INFINITY`, `f32::NEG_INFINITY`) are identified
by their unique IEEE-754 single-precision bit patterns.

The host orchestrator (`src/main.rs`) is modelled by explicit lists: the
descriptor sets built by each kernel constructor, the buffer allocations,
and the sequence of dispatches issued by the sample/bounce loop.  The
finalization stage maps the accumulator through a single scalar division;
it is embedded polymorphically over any component type with division, so
the statements hold in particular for the `f32` arithmetic of the source.
-/

/-- Number of values of a 32-bit unsigned integer; `f32` bit patterns and
`u32` values both live below this bound. -/
def u32Size : Nat := 2 ^ 32

/-- IEEE-754 single-precision bit pattern of `f32::INFINITY`. -/
def f32InfinityBits : Nat := 0x7f800000

/-- IEEE-754 single-precision bit pattern of `f32::NEG_INFINITY`. -/
def f32NegInfinityBits : Nat := 0xff800000

/-- IEEE-754 single-precision bit pattern of `0.0f32`. -/
def f32ZeroBits : Nat := 0

/-- `glam::Vec4` with components drawn from an arbitrary type: instantiated
at `Nat` when a slot is viewed as its 32-bit pattern, and at a type with
division for the finalization arithmetic. -/
structure Vec4 (α : Type) where
  x : α
  y : α
  z : α
  w : α
deriving DecidableEq

/-- `glam::Vec3`, the result type of the bounding-box accessors. -/
structure Vec3 (α : Type) where
  x : α
  y : α
  z : α
deriving DecidableEq

/-- `glam::UVec2`, a pair of `u32` values (one per-pixel RNG seed pair). -/
structure UVec2 where
  x : Nat
  y : Nat
deriving DecidableEq

/-- `TracingConfig` from `shared_structs/src/lib.rs`. -/
structure TracingConfig where
  width : Nat
  height : Nat
  max_bounces : Nat
deriving DecidableEq

/-- `MaterialData` from `shared_structs/src/lib.rs`.  The private Rust
field `has_albedo_texture: u32` is named `has_albedo_texture_raw` here so
that the public accessor can keep the source name `has_albedo_texture`. -/
structure MaterialData where
  albedo : Vec4 Nat
  has_albedo_texture_raw : Nat
  padding : Nat × Nat × Nat
deriving DecidableEq

/-- `MaterialData::has_albedo_texture`: `self.has_albedo_texture != 0`. -/
def MaterialData.has_albedo_texture (m : MaterialData) : Bool :=
  m.has_albedo_texture_raw != 0

/-- `MaterialData::set_has_albedo_texture`: stores `1` for `true`, `0` for
`false`. -/
def MaterialData.set_has_albedo_texture (m : MaterialData) (b : Bool) :
    MaterialData :=
  { m with has_albedo_texture_raw := if b then 1 else 0 }

/-- `PerVertexData` from `shared_structs/src/lib.rs`. -/
structure PerVertexData where
  vertex : Vec4 Nat
  normal : Vec4 Nat
  uv0 : Nat × Nat
  uv1 : Nat × Nat
deriving DecidableEq

/-- `BVHNode` from `shared_structs/src/lib.rs`: two `Vec4` slots whose `w`
components carry integer payloads.  The private Rust fields `aabb_min` and
`aabb_max` are named `aabb_min_v` and `aabb_max_v` here so that the public
accessors can keep the source names `aabb_min`/`aabb_max`. -/
structure BVHNode where
  aabb_min_v : Vec4 Nat
  aabb_max_v : Vec4 Nat
deriving DecidableEq

/-- `Default for BVHNode`: an inverted box `(+inf,+inf,+inf,0.0)` /
`(-inf,-inf,-inf,0.0)`, each slot given by its bit pattern. -/
def BVHNode.default : BVHNode :=
  { aabb_min_v :=
      ⟨f32InfinityBits, f32InfinityBits, f32InfinityBits, f32ZeroBits⟩,
    aabb_max_v :=
      ⟨f32NegInfinityBits, f32NegInfinityBits, f32NegInfinityBits,
        f32ZeroBits⟩ }

/-- `BVHNode::triangle_count`: `transmute` of `aabb_min.w`, the identity on
the stored bit pattern. -/
def BVHNode.triangle_count (n : BVHNode) : Nat :=
  n.aabb_min_v.w

/-- `BVHNode::left_node_index`: `transmute` of `aabb_max.w`. -/
def BVHNode.left_node_index (n : BVHNode) : Nat :=
  n.aabb_max_v.w

/-- `BVHNode::right_node_index`: `left_node_index() + 1` in `u32`
arithmetic, hence reduced modulo `2^32`. -/
def BVHNode.right_node_index (n : BVHNode) : Nat :=
  (n.left_node_index + 1) % u32Size

/-- `BVHNode::first_triangle_index`: `transmute` of `aabb_max.w`. -/
def BVHNode.first_triangle_index (n : BVHNode) : Nat :=
  n.aabb_max_v.w

/-- `BVHNode::aabb_min`: the `xyz` swizzle of the min slot. -/
def BVHNode.aabb_min (n : BVHNode) : Vec3 Nat :=
  ⟨n.aabb_min_v.x, n.aabb_min_v.y, n.aabb_min_v.z⟩

/-- `BVHNode::aabb_max`: the `xyz` swizzle of the max slot. -/
def BVHNode.aabb_max (n : BVHNode) : Vec3 Nat :=
  ⟨n.aabb_max_v.x, n.aabb_max_v.y, n.aabb_max_v.z⟩

/-- `BVHNode::is_leaf`: `triangle_count() > 0`. -/
def BVHNode.is_leaf (n : BVHNode) : Bool :=
  decide (n.triangle_count > 0)

/-- `BVHNode::set_triangle_count`: `transmute` of the argument into
`aabb_min.w`, the identity on the bit pattern. -/
def BVHNode.set_triangle_count (n : BVHNode) (v : Nat) : BVHNode :=
  { n with aabb_min_v := { n.aabb_min_v with w := v } }

/-- `BVHNode::set_left_node_index`: `transmute` into `aabb_max.w`. -/
def BVHNode.set_left_node_index (n : BVHNode) (v : Nat) : BVHNode :=
  { n with aabb_max_v := { n.aabb_max_v with w := v } }

/-- `BVHNode::set_first_triangle_index`: `transmute` into `aabb_max.w`. -/
def BVHNode.set_first_triangle_index (n : BVHNode) (v : Nat) : BVHNode :=
  { n with aabb_max_v := { n.aabb_max_v with w := v } }

/-- `BVHNode::set_aabb_min`: assigns the `x`, `y`, `z` components of the
min slot, leaving its `w` component untouched. -/
def BVHNode.set_aabb_min (n : BVHNode) (v : Vec3 Nat) : BVHNode :=
  { n with aabb_min_v :=
      { n.aabb_min_v with x := v.x, y := v.y, z := v.z } }

/-- `BVHNode::set_aabb_max`: assigns the `x`, `y`, `z` components of the
max slot, leaving its `w` component untouched. -/
def BVHNode.set_aabb_max (n : BVHNode) (v : Vec3 Nat) : BVHNode :=
  { n with aabb_max_v :=
      { n.aabb_max_v with x := v.x, y := v.y, z := v.z } }

/-- The device buffers allocated by `main` in `src/main.rs`, used to name
which buffer a descriptor binding refers to. -/
inductive BufferName
  | rayOrigin
  | rayDir
  | throughput
  | rngState
  | outputAcc
deriving DecidableEq

/-- `gpgpu::GpuBufferUsage`: the access mode declared for a binding. -/
inductive GpuBufferUsage
  | ReadOnly
  | ReadWrite
deriving DecidableEq

/-- A built descriptor set: the ordered list of `(buffer, usage)` bindings
produced by chained `bind_buffer` calls. -/
def DescriptorSet.default : List (BufferName × GpuBufferUsage) := []

/-- `DescriptorSet::bind_buffer`: appends one binding to the set. -/
def DescriptorSet.bind_buffer (ds : List (BufferName × GpuBufferUsage))
    (b : BufferName) (u : GpuBufferUsage) :
    List (BufferName × GpuBufferUsage) :=
  ds ++ [(b, u)]

/-- A constructed pipeline stage: the entry point it loads from the shared
kernel module, and the descriptor bindings it was built with. -/
structure Kernel where
  entryPoint : String
  bindings : List (BufferName × GpuBufferUsage)
deriving DecidableEq

/-- `RayGenKernel::new`: binds ray origin, ray direction, throughput (all
read-write) and rng state (read-only), in that order, for entry point
`main_raygen`. -/
def RayGenKernel.new (ray_origin_buffer ray_dir_buffer throughput_buffer
    rng_buffer : BufferName) : Kernel :=
  { entryPoint := "main_raygen",
    bindings :=
      DescriptorSet.bind_buffer
        (DescriptorSet.bind_buffer
          (DescriptorSet.bind_buffer
            (DescriptorSet.bind_buffer DescriptorSet.default
              ray_origin_buffer GpuBufferUsage.ReadWrite)
            ray_dir_buffer GpuBufferUsage.ReadWrite)
          throughput_buffer GpuBufferUsage.ReadWrite)
        rng_buffer GpuBufferUsage.ReadOnly }

/-- `RayTraceKernel::new`: binds ray origin and ray direction (both
read-write), in that order, for entry point `main_raytrace`. -/
def RayTraceKernel.new (ray_origin_buffer ray_dir_buffer : BufferName) :
    Kernel :=
  { entryPoint := "main_raytrace",
    bindings :=
      DescriptorSet.bind_buffer
        (DescriptorSet.bind_buffer DescriptorSet.default
          ray_origin_buffer GpuBufferUsage.ReadWrite)
        ray_dir_buffer GpuBufferUsage.ReadWrite }

/-- `MaterialKernel::new`: binds ray origin, ray direction, throughput,
rng state and output accumulator (all read-write), in that order, for
entry point `main_material`. -/
def MaterialKernel.new (ray_origin_buffer ray_dir_buffer throughput_buffer
    rng_buffer output_buffer : BufferName) : Kernel :=
  { entryPoint := "main_material",
    bindings :=
      DescriptorSet.bind_buffer
        (DescriptorSet.bind_buffer
          (DescriptorSet.bind_buffer
            (DescriptorSet.bind_buffer
              (DescriptorSet.bind_buffer DescriptorSet.default
                ray_origin_buffer GpuBufferUsage.ReadWrite)
              ray_dir_buffer GpuBufferUsage.ReadWrite)
            throughput_buffer GpuBufferUsage.ReadWrite)
          rng_buffer GpuBufferUsage.ReadWrite)
        output_buffer GpuBufferUsage.ReadWrite }

/-- The stage kernels as `main` constructs them, each handed the buffers
`main` allocates. -/
def mainRayGenKernel : Kernel :=
  RayGenKernel.new BufferName.rayOrigin BufferName.rayDir
    BufferName.throughput BufferName.rngState

/-- The intersection stage as `main` constructs it. -/
def mainRayTraceKernel : Kernel :=
  RayTraceKernel.new BufferName.rayOrigin BufferName.rayDir

/-- The shading stage as `main` constructs it. -/
def mainMaterialKernel : Kernel :=
  MaterialKernel.new BufferName.rayOrigin BufferName.rayDir
    BufferName.throughput BufferName.rngState BufferName.outputAcc

/-- The three pipeline stages. -/
inductive Stage
  | RayGeneration
  | Intersection
  | Shading
deriving DecidableEq

/-- One `kernel.enqueue` call: the stage dispatched and its 3D work-group
count. -/
structure Dispatch where
  stage : Stage
  groups : Nat × Nat × Nat
deriving DecidableEq

/-- The work-group count every `enqueue` call in `main` passes:
`(config.width / 64, config.height, 1)` with truncating `u32` division. -/
def dispatchGroups (width height : Nat) : Nat × Nat × Nat :=
  (width / 64, height, 1)

/-- The dispatch sequence issued by the sample/bounce loop of `main`: per
sample, one ray-generation enqueue followed by `bounces` repetitions of an
intersection enqueue then a shading enqueue. -/
def renderDispatches (width height samples bounces : Nat) : List Dispatch :=
  (List.range samples).flatMap (fun _ =>
    ⟨Stage.RayGeneration, dispatchGroups width height⟩ ::
      (List.range bounces).flatMap (fun _ =>
        [⟨Stage.Intersection, dispatchGroups width height⟩,
         ⟨Stage.Shading, dispatchGroups width height⟩]))

/-- The stage order the specification describes, written from its words:
for each sample, one RayGeneration dispatch, followed by `bounces`
repetitions of one Intersection dispatch then one Shading dispatch, with
no interleaving. -/
def specStageOrder (samples bounces : Nat) : List Stage :=
  (List.range samples).flatMap (fun _ =>
    Stage.RayGeneration ::
      (List.range bounces).flatMap (fun _ =>
        [Stage.Intersection, Stage.Shading]))

/-- `pixel_count` in `main`: the `u32` product `config.width *
config.height` (the `as u64` cast is applied only after the 32-bit
multiplication, so an overflowing product wraps modulo `2^32` — release
semantics; debug builds abort instead). -/
def pixel_count (width height : Nat) : Nat := (width * height) % u32Size

/-- `gpgpu::GpuBuffer::with_capacity`: a device buffer of `n` elements. -/
def GpuBuffer.with_capacity (α : Type) [Inhabited α] (n : Nat) : List α :=
  List.replicate n default

/-- `gpgpu::GpuBuffer::from_slice`: a device buffer initialized from host
data. -/
def GpuBuffer.from_slice (α : Type) (data : List α) : List α := data

instance : Inhabited (Vec4 ℚ) := ⟨⟨0, 0, 0, 0⟩⟩

/-- The host RNG seed data built by `main`: one pair drawn from the host
generator (modelled as a stream `gen` of pairs) per iteration of
`0..(config.width * config.height)`, a `u32` product that wraps modulo
`2^32` on overflow, before any buffer is handed to a kernel. -/
def rng_data (gen : Nat → UVec2) (width height : Nat) : List UVec2 :=
  (List.range ((width * height) % u32Size)).map gen

/-- `ray_origin_buffer` in `main`: `with_capacity(pixel_count)`. -/
def ray_origin_buffer (width height : Nat) : List (Vec4 ℚ) :=
  GpuBuffer.with_capacity (Vec4 ℚ) (pixel_count width height)

/-- `ray_dir_buffer` in `main`: `with_capacity(pixel_count)`. -/
def ray_dir_buffer (width height : Nat) : List (Vec4 ℚ) :=
  GpuBuffer.with_capacity (Vec4 ℚ) (pixel_count width height)

/-- `throughput_buffer` in `main`: `with_capacity(pixel_count)`. -/
def throughput_buffer (width height : Nat) : List (Vec4 ℚ) :=
  GpuBuffer.with_capacity (Vec4 ℚ) (pixel_count width height)

/-- `rng_buffer` in `main`: `from_slice(&rng_data)`. -/
def rng_buffer (gen : Nat → UVec2) (width height : Nat) : List UVec2 :=
  GpuBuffer.from_slice UVec2 (rng_data gen width height)

/-- `output_buffer` in `main`: `with_capacity(pixel_count)`. -/
def output_buffer (width height : Nat) : List (Vec4 ℚ) :=
  GpuBuffer.with_capacity (Vec4 ℚ) (pixel_count width height)

/-- An observable step of `main`, in program order: uploading the host RNG
seeds into the rng buffer, or one dispatch. -/
inductive Event
  | initRngBuffer (seedCount : Nat)
  | dispatch (d : Dispatch)
deriving DecidableEq

/-- The program-order trace of `main`: the rng buffer is initialized from
the host seed data when it is created, strictly before the sample/bounce
loop issues any dispatch. -/
def mainTrace (gen : Nat → UVec2) (width height samples bounces : Nat) :
    List Event :=
  Event.initRngBuffer (rng_data gen width height).length ::
    (renderDispatches width height samples bounces).map Event.dispatch

/-- Component-wise scalar division of a `Vec4`, the meaning of
`x / (samples as f32)` on a `glam::Vec4`. -/
def Vec4.divScalar {α : Type} [Div α] (v : Vec4 α) (s : α) : Vec4 α :=
  ⟨v.x / s, v.y / s, v.z / s, v.w / s⟩

/-- The finalization of `main`: each accumulator element read back from
the output buffer is divided by `samples`, then flattened to its `x`, `y`,
`z` channels. -/
def imageBuffer {α : Type} [Div α] (samples : α) (output : List (Vec4 α)) :
    List α :=
  (output.map (fun x => x.divScalar samples)).flatMap (fun x => [x.x, x.y, x.z])

/-! ## Helper lemmas -/

/-- Mapping over a constant-body `flatMap` of a range pushes the map into
the repeated block. -/
theorem map_flatMap_range {α β : Type} (g : α → β) (L : List α) (n : Nat) :
    ((List.range n).flatMap (fun _ => L)).map g =
      (List.range n).flatMap (fun _ => L.map g) := by
  rw [List.map_flatMap]

/-- Occurrence count in a constant-body `flatMap` of a range. -/
theorem count_flatMap_range {α : Type} [DecidableEq α] (L : List α)
    (a : α) (n : Nat) :
    ((List.range n).flatMap (fun _ => L)).count a = n * L.count a := by
  induction n with
  | zero => simp
  | succ k ih =>
    rw [List.range_succ, List.flatMap_append, List.count_append, ih]
    simp [Nat.succ_mul]

/-! ## Claims -/

/-- Claim C1: for every `u32` value `v` and every `BVHNode`,
`set_triangle_count v` then `triangle_count` returns exactly `v`, and
likewise for `set_left_node_index`/`left_node_index` and
`set_first_triangle_index`/`first_triangle_index`: the stored slot is
reinterpreted bit-for-bit, so the round-trip is bit-exact for all `2^32`
values, including patterns that denote float NaNs or infinities. -/
theorem bvhnode_payload_roundtrip_bitexact (n : BVHNode) (v : Nat)
    (hv : v < u32Size) :
    (n.set_triangle_count v).triangle_count = v ∧
    (n.set_left_node_index v).left_node_index = v ∧
    (n.set_first_triangle_index v).first_triangle_index = v :=
  ⟨rfl, rfl, rfl⟩

/-- Witness for C1 at the quiet-NaN bit pattern `0x7fc00000`. -/
theorem bvhnode_payload_roundtrip_bitexact_witness :
    0x7fc00000 < u32Size ∧
    ((BVHNode.default.set_triangle_count 0x7fc00000).triangle_count =
        0x7fc00000 ∧
      (BVHNode.default.set_left_node_index 0x7fc00000).left_node_index =
        0x7fc00000 ∧
      (BVHNode.default.set_first_triangle_index
          0x7fc00000).first_triangle_index = 0x7fc00000) :=
  ⟨by decide,
    bvhnode_payload_roundtrip_bitexact BVHNode.default 0x7fc00000 (by decide)⟩

/-- Claim C2: for every `samples` and `bounces`, the orchestrator issues
dispatches in exactly the order: per sample one RayGeneration, then
`bounces` repetitions of one Intersection followed by one Shading, with no
interleaving; consequently the total number of Shading dispatches is
exactly `samples * bounces`. -/
theorem dispatch_order_and_shading_total
    (width height samples bounces : Nat) :
    (renderDispatches width height samples bounces).map Dispatch.stage =
      specStageOrder samples bounces ∧
    ((renderDispatches width height samples bounces).map
        Dispatch.stage).count Stage.Shading = samples * bounces := by
  have horder :
      (renderDispatches width height samples bounces).map Dispatch.stage =
        specStageOrder samples bounces := by
    rw [renderDispatches, specStageOrder, List.map_flatMap]
    refine congrArg _ (funext fun _ => ?_)
    rw [List.map_cons, List.map_flatMap]
    rfl
  refine ⟨horder, ?_⟩
  rw [horder, specStageOrder, count_flatMap_range]
  have hblock :
      (Stage.RayGeneration ::
        (List.range bounces).flatMap
          (fun _ => [Stage.Intersection, Stage.Shading])).count
        Stage.Shading = bounces := by
    rw [List.count_cons]
    rw [count_flatMap_range]
    simp
  rw [hblock]

/-- Counterexample to claim C3 as stated: at `width = 100` the single
ray-generation dispatch is issued with `100 / 64 = 1` work groups in x,
not the rounded-up quotient `ceil(100 / 64) = 2`. -/
theorem dispatch_groups_not_ceil_cex :
    ¬ (∀ d ∈ renderDispatches 100 720 1 0,
        d.groups = ((100 + 63) / 64, 720, 1)) := by
  decide

/-- Claim C3 (amended): every stage dispatch is issued with work-group
count `(width / 64, height, 1)` where the division truncates; for a width
that is not a multiple of 64 this is the rounded-DOWN quotient, leaving a
partial column of pixels undispatched. -/
theorem dispatch_groups_floor (width height samples bounces : Nat)
    (d : Dispatch)
    (hd : d ∈ renderDispatches width height samples bounces) :
    d.groups = (width / 64, height, 1) := by
  rw [renderDispatches] at hd
  rw [List.mem_flatMap] at hd
  obtain ⟨s, _, hmem⟩ := hd
  rw [List.mem_cons] at hmem
  rcases hmem with rfl | hmem
  · rfl
  · rw [List.mem_flatMap] at hmem
    obtain ⟨b, _, hmem⟩ := hmem
    rw [List.mem_cons] at hmem
    rcases hmem with rfl | hmem
    · rfl
    · rw [List.mem_cons] at hmem
      rcases hmem with rfl | hmem
      · rfl
      · exact absurd hmem (List.not_mem_nil d)

/-- Witness for the amended C3 at the configuration of `main`
(`width = 1280`): the ray-generation dispatch uses `1280 / 64 = 20`. -/
theorem dispatch_groups_floor_witness :
    (⟨Stage.RayGeneration, (20, 720, 1)⟩ : Dispatch) ∈
      renderDispatches 1280 720 1 1 ∧
    (⟨Stage.RayGeneration, (20, 720, 1)⟩ : Dispatch).groups =
      (1280 / 64, 720, 1) :=
  ⟨by decide,
    dispatch_groups_floor 1280 720 1 1 _ (by decide)⟩

/-- Claim C4: each finalized per-channel value is the corresponding
accumulator channel divided by `samples` — not by the bounce count and not
by `samples * bounces`; the statement is polymorphic in the component
type, so it holds for the scalar division of the source's `f32`
arithmetic in particular. -/
theorem finalization_divides_by_samples {α : Type} [Div α] (samples : α)
    (output : List (Vec4 α)) (i : Nat) (hi : i < output.length) :
    (imageBuffer samples output)[3 * i]? = some (output[i].x / samples) ∧
    (imageBuffer samples output)[3 * i + 1]? =
      some (output[i].y / samples) ∧
    (imageBuffer samples output)[3 * i + 2]? =
      some (output[i].z / samples) := by
  induction output generalizing i with
  | nil => exact absurd hi (by simp)
  | cons v vs ih =>
    have hexp : imageBuffer samples (v :: vs) =
        v.x / samples :: v.y / samples :: v.z / samples ::
          imageBuffer samples vs := by
      simp [imageBuffer, Vec4.divScalar]
    cases i with
    | zero => simp [hexp]
    | succ j =>
      have hj : j < vs.length := by simpa using hi
      have h3 : 3 * (j + 1) = 3 * j + 3 := by ring
      rw [hexp, h3]
      simpa [List.getElem?_cons_succ] using ih j hj

/-- Witness for C4 on a one-element accumulator with `samples = 2`. -/
theorem finalization_divides_by_samples_witness :
    0 < ([(⟨2, 4, 6, 8⟩ : Vec4 ℚ)] : List (Vec4 ℚ)).length ∧
    ((imageBuffer (2 : ℚ) [(⟨2, 4, 6, 8⟩ : Vec4 ℚ)])[3 * 0]? =
        some ((2 : ℚ) / 2) ∧
      (imageBuffer (2 : ℚ) [(⟨2, 4, 6, 8⟩ : Vec4 ℚ)])[3 * 0 + 1]? =
        some ((4 : ℚ) / 2) ∧
      (imageBuffer (2 : ℚ) [(⟨2, 4, 6, 8⟩ : Vec4 ℚ)])[3 * 0 + 2]? =
        some ((6 : ℚ) / 2)) :=
  ⟨by decide,
    finalization_divides_by_samples (2 : ℚ) [⟨2, 4, 6, 8⟩] 0 (by decide)⟩

/-- Claim C5: each stage is constructed with its buffers bound in exactly
the declared order and access mode: ray generation (`main_raygen`) binds
ray origin, ray direction, throughput (read-write) then rng state
(read-only); intersection (`main_raytrace`) binds ray origin and ray
direction (read-write); shading (`main_material`) binds ray origin, ray
direction, throughput, rng state and output accumulator (read-write). -/
theorem kernel_binding_layout :
    mainRayGenKernel.entryPoint = "main_raygen" ∧
    mainRayGenKernel.bindings =
      [(BufferName.rayOrigin, GpuBufferUsage.ReadWrite),
       (BufferName.rayDir, GpuBufferUsage.ReadWrite),
       (BufferName.throughput, GpuBufferUsage.ReadWrite),
       (BufferName.rngState, GpuBufferUsage.ReadOnly)] ∧
    mainRayTraceKernel.entryPoint = "main_raytrace" ∧
    mainRayTraceKernel.bindings =
      [(BufferName.rayOrigin, GpuBufferUsage.ReadWrite),
       (BufferName.rayDir, GpuBufferUsage.ReadWrite)] ∧
    mainMaterialKernel.entryPoint = "main_material" ∧
    mainMaterialKernel.bindings =
      [(BufferName.rayOrigin, GpuBufferUsage.ReadWrite),
       (BufferName.rayDir, GpuBufferUsage.ReadWrite),
       (BufferName.throughput, GpuBufferUsage.ReadWrite),
       (BufferName.rngState, GpuBufferUsage.ReadWrite),
       (BufferName.outputAcc, GpuBufferUsage.ReadWrite)] :=
  ⟨rfl, rfl, rfl, rfl, rfl, rfl⟩

/-- Counterexample to claim C6 as stated: at the valid `u32` dimensions
`width = height = 65536` the `u32` product `width * height` wraps to `0`,
so the allocated buffers and the host seed data have `0` elements, not
`width * height` (debug builds abort on the same multiplication instead
of allocating at all). -/
theorem buffer_lengths_overflow_cex :
    (ray_origin_buffer 65536 65536).length = 0 ∧
    (ray_origin_buffer 65536 65536).length ≠ 65536 * 65536 ∧
    (rng_buffer (fun _ => ⟨0, 0⟩) 65536 65536).length = 0 ∧
    (rng_buffer (fun _ => ⟨0, 0⟩) 65536 65536).length ≠ 65536 * 65536 := by
  refine ⟨?_, ?_, ?_, ?_⟩ <;>
    simp [ray_origin_buffer, rng_buffer, GpuBuffer.with_capacity,
      GpuBuffer.from_slice, rng_data, pixel_count, u32Size]

/-- Claim C6 (amended): for every positive width and height whose product
does not overflow `u32` (`width * height < 2^32`), each mutable device
buffer allocated by `main` has exactly `width * height` elements, the rng
buffer is initialized from exactly `width * height` host seed pairs, and
in program order that initialization precedes every dispatch. -/
theorem buffer_lengths_and_rng_init (gen : Nat → UVec2)
    (width height samples bounces : Nat) (hw : 0 < width)
    (hh : 0 < height) (hpix : width * height < u32Size) :
    (ray_origin_buffer width height).length = width * height ∧
    (ray_dir_buffer width height).length = width * height ∧
    (throughput_buffer width height).length = width * height ∧
    (rng_buffer gen width height).length = width * height ∧
    (output_buffer width height).length = width * height ∧
    (mainTrace gen width height samples bounces).head? =
      some (Event.initRngBuffer (width * height)) ∧
    ∀ e ∈ (mainTrace gen width height samples bounces).tail,
      ∃ d : Dispatch, e = Event.dispatch d := by
  refine ⟨?_, ?_, ?_, ?_, ?_, ?_, ?_⟩
  · simp [ray_origin_buffer, GpuBuffer.with_capacity, pixel_count,
      Nat.mod_eq_of_lt hpix]
  · simp [ray_dir_buffer, GpuBuffer.with_capacity, pixel_count,
      Nat.mod_eq_of_lt hpix]
  · simp [throughput_buffer, GpuBuffer.with_capacity, pixel_count,
      Nat.mod_eq_of_lt hpix]
  · simp [rng_buffer, GpuBuffer.from_slice, rng_data,
      Nat.mod_eq_of_lt hpix]
  · simp [output_buffer, GpuBuffer.with_capacity, pixel_count,
      Nat.mod_eq_of_lt hpix]
  · simp [mainTrace, rng_data, Nat.mod_eq_of_lt hpix]
  · intro e he
    simp only [mainTrace, List.tail_cons, List.mem_map] at he
    obtain ⟨d, _, rfl⟩ := he
    exact ⟨d, rfl⟩

/-- Witness for the amended C6 at `width = 2`, `height = 3`, one sample,
one bounce, with a constant host seed stream. -/
theorem buffer_lengths_and_rng_init_witness :
    0 < 2 ∧ 0 < 3 ∧ 2 * 3 < u32Size ∧
    ((ray_origin_buffer 2 3).length = 2 * 3 ∧
      (ray_dir_buffer 2 3).length = 2 * 3 ∧
      (throughput_buffer 2 3).length = 2 * 3 ∧
      (rng_buffer (fun _ => ⟨0, 0⟩) 2 3).length = 2 * 3 ∧
      (output_buffer 2 3).length = 2 * 3 ∧
      (mainTrace (fun _ => ⟨0, 0⟩) 2 3 1 1).head? =
        some (Event.initRngBuffer (2 * 3)) ∧
      ∀ e ∈ (mainTrace (fun _ => ⟨0, 0⟩) 2 3 1 1).tail,
        ∃ d : Dispatch, e = Event.dispatch d) :=
  ⟨by decide, by decide, by decide,
    buffer_lengths_and_rng_init (fun _ => ⟨0, 0⟩) 2 3 1 1 (by decide)
      (by decide) (by decide)⟩

/-- Claim C7: for every node marked internal (`triangle_count() = 0`),
`right_node_index()` is `left_node_index() + 1` in `u32` arithmetic — and
exactly `left_node_index() + 1` whenever that successor is representable —
for every stored `left_node_index` value; no separate right-child pointer
exists. -/
theorem internal_node_right_sibling (n : BVHNode)
    (h : n.triangle_count = 0) :
    n.right_node_index = (n.left_node_index + 1) % u32Size ∧
    (n.left_node_index + 1 < u32Size →
      n.right_node_index = n.left_node_index + 1) := by
  refine ⟨rfl, fun hlt => ?_⟩
  unfold BVHNode.right_node_index
  exact Nat.mod_eq_of_lt hlt

/-- Witness for C7 on the default node, which is internal with
`left_node_index = 0`. -/
theorem internal_node_right_sibling_witness :
    BVHNode.default.triangle_count = 0 ∧
    (BVHNode.default.right_node_index =
        (BVHNode.default.left_node_index + 1) % u32Size ∧
      (BVHNode.default.left_node_index + 1 < u32Size →
        BVHNode.default.right_node_index =
          BVHNode.default.left_node_index + 1)) :=
  ⟨by decide, internal_node_right_sibling BVHNode.default (by decide)⟩

/-- Claim C8: the default `BVHNode` has `triangle_count() = 0` (so
`is_leaf()` is false), bounding box `(+inf, +inf, +inf)` /
`(-inf, -inf, -inf)` given by the infinity bit patterns, and both `w`
payload slots hold the bit pattern of integer zero. -/
theorem bvhnode_default_values :
    BVHNode.default.triangle_count = 0 ∧
    BVHNode.default.is_leaf = false ∧
    BVHNode.default.aabb_min =
      ⟨f32InfinityBits, f32InfinityBits, f32InfinityBits⟩ ∧
    BVHNode.default.aabb_max =
      ⟨f32NegInfinityBits, f32NegInfinityBits, f32NegInfinityBits⟩ ∧
    BVHNode.default.aabb_min_v.w = 0 ∧
    BVHNode.default.aabb_max_v.w = 0 := by
  decide

/-- Claim C9: for every `MaterialData` and boolean `b`,
`set_has_albedo_texture b` then `has_albedo_texture` returns exactly `b`,
and the setter stores only the integer `0` or `1` in the underlying
32-bit field. -/
theorem material_flag_roundtrip (m : MaterialData) (b : Bool) :
    (m.set_has_albedo_texture b).has_albedo_texture = b ∧
    ((m.set_has_albedo_texture b).has_albedo_texture_raw = 0 ∨
      (m.set_has_albedo_texture b).has_albedo_texture_raw = 1) := by
  cases b <;>
    simp [MaterialData.set_has_albedo_texture,
      MaterialData.has_albedo_texture]

/-- Claim C10: `set_aabb_min` writes the three min-bound components and
leaves `triangle_count` (the `aabb_min.w` payload) and the entire max slot
unchanged; symmetrically `set_aabb_max` leaves `left_node_index` /
`first_triangle_index` (the `aabb_max.w` payload) and the min slot
unchanged. -/
theorem set_aabb_preserves_payloads (n : BVHNode) (v : Vec3 Nat) :
    (n.set_aabb_min v).aabb_min = v ∧
    (n.set_aabb_min v).triangle_count = n.triangle_count ∧
    (n.set_aabb_min v).aabb_max_v = n.aabb_max_v ∧
    (n.set_aabb_max v).aabb_max = v ∧
    (n.set_aabb_max v).left_node_index = n.left_node_index ∧
    (n.set_aabb_max v).first_triangle_index = n.first_triangle_index ∧
    (n.set_aabb_max v).aabb_min_v = n.aabb_min_v :=
  ⟨rfl, rfl, rfl, rfl, rfl, rfl, rfl⟩
